import Mathlib

/-
Verification development for the DbmsRest typed value/schema engine.

Shallow embedding of src/models.py (Color, Value, Type, Column, Row,
Table, Database, TableDifference) and the cell-update handler of
src/main.py. Python dicts keyed by non-negative ids are embedded as
association lists in insertion order; Python exceptions become Except
values; pydantic conint(ge=0, le=255) fields become Fin 256.
-/

set_option autoImplicit false

namespace DbmsRest

/-- Channel value constrained to 0..255, as pydantic conint(ge=0, le=255). -/
abbrev Channel := Fin 256

/-- Color (models.py, class Color): a triple of channel values 0..255.
Pydantic model equality is field-wise, which is the derived equality here. -/
structure Color where
  r : Channel
  g : Channel
  b : Channel
deriving DecidableEq

/-- Embedding of a Python decimal.Decimal value: the represented number is
mantissa / 10 ^ exponent. Finite decimals only, which is what the wire
accepts for cell values. -/
structure Decimal where
  mantissa : Int
  exponent : Nat
deriving DecidableEq

/-- Python numeric equality between a Decimal and an int: d == i holds iff
they denote the same number. -/
def Decimal.eqInt (d : Decimal) (i : Int) : Bool :=
  d.mantissa == i * 10 ^ d.exponent

/-- Python numeric equality between two Decimal values: trailing zeros are
ignored, only the denoted numbers are compared. -/
def Decimal.numEq (a b : Decimal) : Bool :=
  a.mantissa * 10 ^ b.exponent == b.mantissa * 10 ^ a.exponent

/-- Value (models.py line 13): Union[int, Decimal, str, Color]. -/
inductive Value where
  | int (i : Int)
  | dec (d : Decimal)
  | str (s : String)
  | color (c : Color)
deriving DecidableEq

/-- Python == on two Value operands. int and Decimal compare numerically
(Python coerces between them); str compares as text; Color compares
field-wise (pydantic model equality); every other cross-kind pair is
unequal. -/
def Value.pyEq : Value → Value → Bool
  | .int i, .int j => i == j
  | .int i, .dec d => d.eqInt i
  | .dec d, .int i => d.eqInt i
  | .dec d, .dec e => d.numEq e
  | .str s, .str t => s == t
  | .color c, .color d => c == d
  | _, _ => false

/-- Python == on two lists of Value: element-wise pyEq, lengths must agree. -/
def listPyEq : List Value → List Value → Bool
  | [], [] => true
  | [], _ :: _ => false
  | _ :: _, [] => false
  | x :: xs, y :: ys => x.pyEq y && listPyEq xs ys

/-- Type (models.py, class Type): the enumerated column type tag. -/
inductive Ty where
  | Integer
  | Real
  | Char
  | String
  | Color
  | ColorInvl
deriving DecidableEq

/-- Column (models.py, class Column): name, type tag, and six optional
channel bounds, each constrained to 0..255 at the field level by pydantic. -/
structure Column where
  name : String
  type : Ty
  r_min : Option Channel
  r_max : Option Channel
  g_min : Option Channel
  g_max : Option Channel
  b_min : Option Channel
  b_max : Option Channel
deriving DecidableEq

/-- The three construction-time schema failures of Column.check
(models.py lines 35-48), named as in the spec error taxonomy. MissingRange
is the ValueError raised when type is ColorInvl and a bound is None;
RangeOutOfOrder when some channel has min greater than max; UnexpectedRange
when a non-ColorInvl column carries any bound. -/
inductive SchemaError where
  | MissingRange
  | RangeOutOfOrder
  | UnexpectedRange
deriving DecidableEq

/-- Errors raised by the engine at runtime. TypeMismatch embeds the
ValueError of check_value (the Python message text is dropped: only the
kind matters here). Unreachable stands for the Python TypeError that a
None bound comparison would raise on an invalidly built ColorInvl column,
a state the construction invariant rules out. -/
inductive DbError where
  | TypeMismatch
  | RowLengthMismatch
  | IncompatibleColumnCount
  | IncompatibleColumnTypes
  | RowNotFound
  | ColumnNotFound
  | Unreachable
deriving DecidableEq

/-- Column.check (models.py lines 35-48), the model validator run at
construction: for ColorInvl all six bounds must be present (else
MissingRange) and each channel must satisfy min less-or-equal max (else
RangeOutOfOrder); for every other type all six bounds must be absent (else
UnexpectedRange). On success the column itself is returned. -/
def Column.check (c : Column) : Except SchemaError Column :=
  if c.type = Ty.ColorInvl then
    match c.r_min, c.r_max, c.g_min, c.g_max, c.b_min, c.b_max with
    | some rmin, some rmax, some gmin, some gmax, some bmin, some bmax =>
      if rmax < rmin then .error .RangeOutOfOrder
      else if gmax < gmin then .error .RangeOutOfOrder
      else if bmax < bmin then .error .RangeOutOfOrder
      else .ok c
    | _, _, _, _, _, _ => .error .MissingRange
  else
    if c.r_min = none ∧ c.r_max = none ∧ c.g_min = none ∧ c.g_max = none ∧
       c.b_min = none ∧ c.b_max = none then .ok c
    else .error .UnexpectedRange

/-- Column.check_value (models.py lines 56-76): accepts a value iff its
runtime kind matches the column type; for Char the text must have length
one; for ColorInvl the value must be a Color whose three channels each lie
inside that channel's inclusive bounds. The Python short-circuit is kept:
a non-Color value on a ColorInvl column fails before any bound is read. -/
def Column.check_value (c : Column) (v : Value) : Except DbError Unit :=
  match c.type with
  | .Integer => match v with
    | .int _ => .ok ()
    | _ => .error .TypeMismatch
  | .Real => match v with
    | .int _ => .ok ()
    | .dec _ => .ok ()
    | _ => .error .TypeMismatch
  | .Char => match v with
    | .str s => if s.length = 1 then .ok () else .error .TypeMismatch
    | _ => .error .TypeMismatch
  | .String => match v with
    | .str _ => .ok ()
    | _ => .error .TypeMismatch
  | .Color => match v with
    | .color _ => .ok ()
    | _ => .error .TypeMismatch
  | .ColorInvl => match v with
    | .color col =>
      match c.r_min, c.r_max, c.g_min, c.g_max, c.b_min, c.b_max with
      | some rmin, some rmax, some gmin, some gmax, some bmin, some bmax =>
        if rmin ≤ col.r ∧ col.r ≤ rmax ∧ gmin ≤ col.g ∧ col.g ≤ gmax ∧
           bmin ≤ col.b ∧ col.b ≤ bmax
        then .ok () else .error .TypeMismatch
      | _, _, _, _, _, _ => .error .Unreachable
    | _ => .error .TypeMismatch

/-- Column.get_type (models.py lines 78-83), the type-signature view used
for cross-table comparison and for labeling difference output. Field
assignments are transcribed exactly as written in the source: the g and b
fields of the result are filled from r_min and r_max of the receiver. -/
def Column.get_type (c : Column) (name : String) : Column :=
  ⟨name, c.type, c.r_min, c.r_max, c.r_min, c.r_max, c.r_min, c.r_max⟩

/-- Row (models.py, class Row): a stable id plus the ordered cell vector. -/
structure Row where
  id : Nat
  cells : List Value
deriving DecidableEq

/-- Table (models.py, class Table): fixed columns, the private dict of rows
embedded as an association list in insertion order, and the private
next-id counter. -/
structure Table where
  id : Nat
  name : String
  columns : List Column
  rows : List (Nat × Row)
  next_id : Nat
deriving DecidableEq

/-- TableDifference (models.py, class TableDifference): the derived result
of subtracting one table from another. -/
structure TableDifference where
  left_table : Table
  right_table : Table
  columns : List Column
  rows : List (Nat × Row)
deriving DecidableEq

/-- The validation loop of Table.add_row (models.py lines 101-102): check
each cell against its column in order, stopping at the first failure. -/
def checkCells : List Column → List Value → Except DbError Unit
  | [], _ => .ok ()
  | _ :: _, [] => .ok ()
  | c :: cs, v :: vs =>
    match c.check_value v with
    | .error e => .error e
    | .ok _ => checkCells cs vs

/-- Table.add_row (models.py lines 98-106): reject a cell list whose length
differs from the column count, otherwise validate every cell in order,
and on success store a row under the current counter value and bump the
counter. The returned pair is the updated table and the new row. -/
def Table.add_row (t : Table) (cells : List Value) : Except DbError (Table × Row) :=
  if cells.length ≠ t.columns.length then .error .RowLengthMismatch
  else match checkCells t.columns cells with
    | .error e => .error e
    | .ok _ =>
      let row : Row := ⟨t.next_id, cells⟩
      .ok (⟨t.id, t.name, t.columns, t.rows ++ [(t.next_id, row)], t.next_id + 1⟩, row)

/-- Table.remove_row (models.py lines 108-110): delete the row under the
given id when present; absent ids are a silent no-op. -/
def Table.remove_row (t : Table) (id : Nat) : Table :=
  ⟨t.id, t.name, t.columns, t.rows.filter fun p => p.1 ≠ id, t.next_id⟩

/-- Table.contains_row (models.py lines 112-113): does some stored row have
a cell vector Python-equal to the given row's cells. -/
def Table.contains_row (t : Table) (row : Row) : Bool :=
  t.rows.any fun p => listPyEq row.cells p.2.cells

/-- Dict lookup _rows[row_id] used by the request layer (main.py). -/
def Table.lookupRow (t : Table) (id : Nat) : Option Row :=
  (t.rows.find? fun p => p.1 = id).map Prod.snd

/-- The combined column name built by Table.__sub__ when the two sides
disagree: the two names, each wrapped in single quotes, joined by a slash. -/
def combineName (l r : String) : String :=
  String.singleton (Char.ofNat 39) ++ l ++ String.singleton (Char.ofNat 39) ++
  " / " ++ String.singleton (Char.ofNat 39) ++ r ++ String.singleton (Char.ofNat 39)

/-- Table.__sub__ (models.py lines 115-131): fail when the column counts
differ, then when some positional pair of columns has unequal get_type
signatures; otherwise build the combined columns and keep every left row
whose cells no right row matches. -/
def Table.sub (left right : Table) : Except DbError TableDifference :=
  if left.columns.length ≠ right.columns.length then .error .IncompatibleColumnCount
  else if (left.columns.zip right.columns).any
      (fun p => decide (p.1.get_type "" ≠ p.2.get_type "")) then
    .error .IncompatibleColumnTypes
  else
    .ok ⟨left, right,
      (left.columns.zip right.columns).map (fun p =>
        p.1.get_type (if p.1.name = p.2.name then p.1.name
                      else combineName p.1.name p.2.name)),
      left.rows.filter fun p => !(right.contains_row p.2)⟩

/-- Database (models.py, class Database): named collection of tables with
its own id counter; the dict of tables is an association list in
insertion order. -/
structure Database where
  name : String
  tables : List (Nat × Table)
  next_id : Nat
deriving DecidableEq

/-- Database.add_table (models.py lines 139-143): always succeeds, storing
a fresh table under the current counter value and bumping the counter. -/
def Database.add_table (db : Database) (name : String) (columns : List Column) :
    Database × Table :=
  let t : Table := ⟨db.next_id, name, columns, [], 0⟩
  (⟨db.name, db.tables ++ [(db.next_id, t)], db.next_id + 1⟩, t)

/-- Database.remove_table (models.py lines 145-147): delete the table under
the given id when present; absent ids are a silent no-op. -/
def Database.remove_table (db : Database) (id : Nat) : Database :=
  ⟨db.name, db.tables.filter fun p => p.1 ≠ id, db.next_id⟩

/-- update_cell_value (main.py lines 182-199) restricted to one table: look
the row up (missing row is RowNotFound), bound-check the column index
(out of range is ColumnNotFound), validate the value with check_value, and
only on success overwrite the cell in place. The first component of the
result is the table state afterwards: unchanged on every failure. -/
def update_cell_value (t : Table) (row_id column_id : Nat) (value : Value) :
    Table × Except DbError Row :=
  match t.lookupRow row_id with
  | none => (t, .error .RowNotFound)
  | some row =>
    if hc : column_id < t.columns.length then
      match (t.columns.get ⟨column_id, hc⟩).check_value value with
      | .error e => (t, .error e)
      | .ok _ =>
        let row2 : Row := ⟨row.id, row.cells.set column_id value⟩
        (⟨t.id, t.name, t.columns,
          t.rows.map fun p => if p.1 = row_id then (p.1, row2) else p,
          t.next_id⟩, .ok row2)
    else (t, .error .ColumnNotFound)

/-- Modelled from the spec words for the difference row filter: exact/typed
equality with no numeric coercion across kinds, so an int only ever equals
an int. Used only to compare the spec reading of row equality with the
pyEq the source uses. -/
def Value.exactEq : Value → Value → Bool
  | .int i, .int j => i == j
  | .dec d, .dec e => d == e
  | .str s, .str t => s == t
  | .color c, .color d => c == d
  | _, _ => false

/-- Modelled from the spec words: element-wise exact/typed equality of two
cell vectors. -/
def listExactEq : List Value → List Value → Bool
  | [], [] => true
  | [], _ :: _ => false
  | _ :: _, [] => false
  | x :: xs, y :: ys => x.exactEq y && listExactEq xs ys

end DbmsRest

deriving instance DecidableEq for Except

namespace DbmsRest

/-- A ColorInvl column whose three channels carry three different bound
pairs: r in 0..1, g in 2..3, b in 4..5. -/
def colC1 : Column := ⟨"c", .ColorInvl, some 0, some 1, some 2, some 3, some 4, some 5⟩

/-- Same as colC1 except for the green and blue bounds. -/
def colC1alt : Column := ⟨"c", .ColorInvl, some 0, some 1, some 100, some 200, some 6, some 7⟩

/-- An Integer column with no bounds. -/
def colInt : Column := ⟨"n", .Integer, none, none, none, none, none, none⟩

/-- A String column with no bounds. -/
def colStr : Column := ⟨"s", .String, none, none, none, none, none, none⟩

/-- A Real column with no bounds. -/
def colReal : Column := ⟨"x", .Real, none, none, none, none, none, none⟩

/-- Left table of the difference example: columns (Integer, String), rows
[[1, a], [2, b], [1, a]]. -/
def exL : Table := ⟨0, "L", [colInt, colStr],
  [(0, ⟨0, [.int 1, .str "a"]⟩), (1, ⟨1, [.int 2, .str "b"]⟩),
   (2, ⟨2, [.int 1, .str "a"]⟩)], 3⟩

/-- Right table of the difference example: one row [[1, a]]. -/
def exR : Table := ⟨1, "R", [colInt, colStr], [(0, ⟨0, [.int 1, .str "a"]⟩)], 1⟩

/-- The difference the code computes for exL minus exR: only the row
[2, b] survives, both copies of [1, a] are filtered out. -/
def exD : TableDifference := ⟨exL, exR,
  [⟨"n", .Integer, none, none, none, none, none, none⟩,
   ⟨"s", .String, none, none, none, none, none, none⟩],
  [(1, ⟨1, [.int 2, .str "b"]⟩)]⟩

/-- Left table for the equality-coercion input: one Real column, one row
holding the Decimal value 1. -/
def cexL : Table := ⟨0, "L", [colReal], [(0, ⟨0, [.dec ⟨1, 0⟩]⟩)], 1⟩

/-- Right table for the equality-coercion input: one Real column, one row
holding the int value 1. -/
def cexR : Table := ⟨1, "R", [colReal], [(0, ⟨0, [.int 1]⟩)], 1⟩

/-- The difference the code computes for cexL minus cexR: empty, because
Python == equates the Decimal 1 cell with the int 1 cell. -/
def cexD : TableDifference := ⟨cexL, cexR,
  [⟨"x", .Real, none, none, none, none, none, none⟩], []⟩

/-- Two-column table used to exercise the column-count mismatch. -/
def w4a : Table := ⟨0, "A", [colInt, colStr], [], 0⟩

/-- One Integer column named n. -/
def w4b : Table := ⟨1, "B", [colInt], [], 0⟩

/-- One Real column, type-incompatible with w4b. -/
def w4c : Table := ⟨2, "C", [colReal], [], 0⟩

/-- One Integer column named m, compatible with w4b but differently named. -/
def w4d : Table := ⟨3, "D", [⟨"m", .Integer, none, none, none, none, none, none⟩], [], 0⟩

/-- A fresh zero-column table. -/
def t8a : Table := ⟨0, "t", [], [], 0⟩

/-- t8a after one successful row insertion. -/
def t8b : Table := ⟨0, "t", [], [(0, ⟨0, []⟩)], 1⟩

/-- t8a after two successful row insertions. -/
def t8c : Table := ⟨0, "t", [], [(0, ⟨0, []⟩), (1, ⟨1, []⟩)], 2⟩

/-- t8a after three successful row insertions. -/
def t8d : Table := ⟨0, "t", [], [(0, ⟨0, []⟩), (1, ⟨1, []⟩), (2, ⟨2, []⟩)], 3⟩

/-- t8d after removing the row with id 1: the counter stays at 3. -/
def t8e : Table := ⟨0, "t", [], [(0, ⟨0, []⟩), (2, ⟨2, []⟩)], 3⟩

/-- t8e after one more insertion: the new row takes id 3, never 1. -/
def t8f : Table := ⟨0, "t", [], [(0, ⟨0, []⟩), (2, ⟨2, []⟩), (3, ⟨3, []⟩)], 4⟩

/-- A fresh database. -/
def db8a : Database := ⟨"db", [], 0⟩

/-- db8a after adding one table. -/
def db8b : Database := (db8a.add_table "ta" []).1

/-- db8b after adding a second table. -/
def db8c : Database := (db8b.add_table "tb" []).1

/-- db8c after adding a third table. -/
def db8d : Database := (db8c.add_table "tc" []).1

/-- One-row table over an Integer column, for the cell-update input. -/
def t9 : Table := ⟨0, "t", [colInt], [(0, ⟨0, [.int 7]⟩)], 1⟩

/-- Zero-column table with one (empty) row. -/
def z10a : Table := ⟨0, "Z", [], [(0, ⟨0, []⟩)], 1⟩

/-- Zero-column table with one (empty) row under a different id. -/
def z10b : Table := ⟨1, "W", [], [(5, ⟨5, []⟩)], 6⟩

/-- On success, Table.sub returns exactly the combined-column,
filtered-row difference record. -/
theorem sub_ok_elim (left right : Table) (d : TableDifference)
    (h : Table.sub left right = .ok d) :
    d = ⟨left, right,
      (left.columns.zip right.columns).map (fun p =>
        p.1.get_type (if p.1.name = p.2.name then p.1.name
                      else combineName p.1.name p.2.name)),
      left.rows.filter fun p => !(right.contains_row p.2)⟩ := by
  unfold Table.sub at h
  split at h
  · simp at h
  · split at h
    · simp at h
    · injection h with h1
      exact h1.symm

/-- C1: the code, run at the failing input. On a ColorInvl column with
bounds r in 0..1, g in 2..3, b in 4..5, get_type fills the green and blue
fields of the signature from the red bounds instead of each channel
keeping its own bounds, so a column that differs only in its green and
blue bounds receives an identical signature. -/
theorem c1_get_type_red_copy :
    Column.get_type colC1 "" =
      ⟨"", .ColorInvl, some 0, some 1, some 0, some 1, some 0, some 1⟩ ∧
    Column.get_type colC1alt "" = Column.get_type colC1 "" ∧
    colC1alt ≠ colC1 := by decide

/-- C2 counterexample: over one Real column each, a left row holding
Decimal 1 and a right row holding int 1 are not equal under the exact/typed
cell equality the claim states, so the claim predicts the left row is
retained; the code compares cells with Python ==, which equates the two
numbers, and returns an empty difference. -/
theorem c2_counterexample :
    Table.sub cexL cexR = .ok cexD ∧ cexD.rows = [] ∧
    cexL.rows.filter (fun p =>
      !(cexR.rows.any fun q => listExactEq p.2.cells q.2.cells)) = cexL.rows ∧
    cexL.rows ≠ [] := by decide

/-- C2 (amended): the rows of a successful difference are exactly those
rows of the left table for which the right table contains no row with a
Python-equal cell sequence, an equality that is typed except that an int
and a Decimal denoting the same number are equal; a left row is excluded
as soon as any matching right row exists, regardless of multiplicity on
either side. -/
theorem c2_difference_row_filter (left right : Table) (d : TableDifference)
    (h : Table.sub left right = .ok d) :
    d.rows = left.rows.filter (fun p => !(right.contains_row p.2)) ∧
    ∀ p, p ∈ d.rows ↔ p ∈ left.rows ∧
      ∀ q ∈ right.rows, listPyEq p.2.cells q.2.cells = false := by
  have hd := sub_ok_elim left right d h
  subst hd
  refine ⟨rfl, fun p => ?_⟩
  simp [List.mem_filter, Table.contains_row, List.any_eq_false]

/-- C2 witness: the filter characterization applied to the concrete
one-column tables. -/
theorem c2_difference_row_filter_witness :
    Table.sub cexL cexR = .ok cexD ∧
    cexD.rows = cexL.rows.filter (fun p => !(cexR.contains_row p.2)) :=
  ⟨by decide, (c2_difference_row_filter cexL cexR cexD (by decide)).1⟩

/-- C3 counterexample: for left rows [[1, a], [2, b], [1, a]] and right
rows [[1, a]] over matching (Integer, String) columns, the difference the
code computes is not [[2, b], [1, a]]. -/
theorem c3_counterexample :
    Table.sub exL exR = .ok exD ∧
    exD.rows.map (fun p => p.2.cells) ≠
      [[.int 2, .str "b"], [.int 1, .str "a"]] := by decide

/-- C3 (amended): for left rows [[1, a], [2, b], [1, a]] and right rows
[[1, a]] over matching (Integer, String) columns, the difference keeps
exactly [[2, b]]: both copies of [1, a] are excluded because a match
exists in the right table. -/
theorem c3_difference_example :
    Table.sub exL exR = .ok exD ∧
    exD.rows.map (fun p => p.2.cells) = [[.int 2, .str "b"]] := by decide

/-- C4: difference fails with IncompatibleColumnCount when the column
counts differ; otherwise it fails with IncompatibleColumnTypes when some
positional pair of columns has unequal signatures; otherwise it succeeds,
each result column is the left column's signature renamed to the shared
name or to the quoted combined name, and every result column's signature
equals the shared signature of its pair. -/
theorem c4_difference_schema (left right : Table) :
    (left.columns.length ≠ right.columns.length →
      Table.sub left right = .error .IncompatibleColumnCount) ∧
    (left.columns.length = right.columns.length →
      ((∃ p ∈ left.columns.zip right.columns, p.1.get_type "" ≠ p.2.get_type "") →
        Table.sub left right = .error .IncompatibleColumnTypes) ∧
      ((∀ p ∈ left.columns.zip right.columns, p.1.get_type "" = p.2.get_type "") →
        ∃ d, Table.sub left right = .ok d ∧
          d.columns = (left.columns.zip right.columns).map (fun p =>
            p.1.get_type (if p.1.name = p.2.name then p.1.name
                          else combineName p.1.name p.2.name)) ∧
          d.columns.map (fun c => c.get_type "") =
            left.columns.map (fun c => c.get_type ""))) := by
  refine ⟨fun hne => ?_, fun hlen => ⟨fun hex => ?_, fun hall => ?_⟩⟩
  · unfold Table.sub
    rw [if_pos hne]
  · unfold Table.sub
    rw [if_neg (by simp [hlen])]
    have hany : (left.columns.zip right.columns).any
        (fun p => decide (p.1.get_type "" ≠ p.2.get_type "")) = true := by
      rw [List.any_eq_true]
      obtain ⟨p, hp, hne2⟩ := hex
      exact ⟨p, hp, by simp [hne2]⟩
    rw [if_pos hany]
  · have hany : (left.columns.zip right.columns).any
        (fun p => decide (p.1.get_type "" ≠ p.2.get_type "")) = false := by
      rw [List.any_eq_false]
      intro x hx
      simp [hall x hx]
    have hsub : Table.sub left right = .ok ⟨left, right,
        (left.columns.zip right.columns).map (fun p =>
          p.1.get_type (if p.1.name = p.2.name then p.1.name
                        else combineName p.1.name p.2.name)),
        left.rows.filter fun p => !(right.contains_row p.2)⟩ := by
      unfold Table.sub
      rw [if_neg (by simp [hlen]), if_neg (by simp only [hany]; simp)]
    refine ⟨_, hsub, rfl, ?_⟩
    show ((left.columns.zip right.columns).map (fun p =>
        p.1.get_type (if p.1.name = p.2.name then p.1.name
                      else combineName p.1.name p.2.name))).map
        (fun c => c.get_type "") =
      left.columns.map (fun c => c.get_type "")
    rw [List.map_map]
    rw [show ((fun c => Column.get_type c "") ∘ (fun (p : Column × Column) =>
        p.1.get_type (if p.1.name = p.2.name then p.1.name
                      else combineName p.1.name p.2.name))) =
      ((fun c => Column.get_type c "") ∘ Prod.fst) from rfl]
    rw [← List.map_map, List.map_fst_zip _ _ hlen.le]

/-- C4 witness: the three branches at concrete tables, a two-column table
against a one-column one, Integer against Real, and two compatible
Integer columns with different names. -/
theorem c4_difference_schema_witness :
    Table.sub w4a w4b = .error .IncompatibleColumnCount ∧
    Table.sub w4b w4c = .error .IncompatibleColumnTypes ∧
    ∃ d, Table.sub w4b w4d = .ok d ∧
      d.columns = (w4b.columns.zip w4d.columns).map (fun p =>
        p.1.get_type (if p.1.name = p.2.name then p.1.name
                      else combineName p.1.name p.2.name)) ∧
      d.columns.map (fun c => c.get_type "") =
        w4b.columns.map (fun c => c.get_type "") :=
  ⟨(c4_difference_schema w4a w4b).1 (by decide),
   ((c4_difference_schema w4b w4c).2 (by decide)).1 (by decide),
   ((c4_difference_schema w4b w4d).2 (by decide)).2 (by decide)⟩

/-- C5: on a validly constructed ColorInvl column (all six bounds present
and ordered, so construction succeeds, first conjunct), check_value
accepts exactly the color values whose three channels each lie inside
that channel's inclusive bounds, and rejects with TypeMismatch exactly
otherwise, including every non-color value. -/
theorem c5_colorinvl_check_value (name : String)
    (rmin rmax gmin gmax bmin bmax : Channel)
    (hr : rmin ≤ rmax) (hg : gmin ≤ gmax) (hb : bmin ≤ bmax) (v : Value) :
    Column.check ⟨name, .ColorInvl, some rmin, some rmax, some gmin, some gmax,
        some bmin, some bmax⟩ =
      .ok ⟨name, .ColorInvl, some rmin, some rmax, some gmin, some gmax,
        some bmin, some bmax⟩ ∧
    (Column.check_value ⟨name, .ColorInvl, some rmin, some rmax, some gmin,
        some gmax, some bmin, some bmax⟩ v = .ok () ↔
      ∃ col : Color, v = .color col ∧ rmin ≤ col.r ∧ col.r ≤ rmax ∧
        gmin ≤ col.g ∧ col.g ≤ gmax ∧ bmin ≤ col.b ∧ col.b ≤ bmax) ∧
    (Column.check_value ⟨name, .ColorInvl, some rmin, some rmax, some gmin,
        some gmax, some bmin, some bmax⟩ v = .error .TypeMismatch ↔
      ¬ ∃ col : Color, v = .color col ∧ rmin ≤ col.r ∧ col.r ≤ rmax ∧
        gmin ≤ col.g ∧ col.g ≤ gmax ∧ bmin ≤ col.b ∧ col.b ≤ bmax) := by
  refine ⟨?_, ?_, ?_⟩
  · simp [Column.check, not_lt.mpr hr, not_lt.mpr hg, not_lt.mpr hb]
  · cases v with
    | color col =>
      by_cases hP : rmin ≤ col.r ∧ col.r ≤ rmax ∧ gmin ≤ col.g ∧ col.g ≤ gmax ∧
          bmin ≤ col.b ∧ col.b ≤ bmax
      · simp [Column.check_value, hP]
      · simp [Column.check_value, hP]
    | int i => simp [Column.check_value]
    | dec d => simp [Column.check_value]
    | str s => simp [Column.check_value]
  · cases v with
    | color col =>
      by_cases hP : rmin ≤ col.r ∧ col.r ≤ rmax ∧ gmin ≤ col.g ∧ col.g ≤ gmax ∧
          bmin ≤ col.b ∧ col.b ≤ bmax
      · simp [Column.check_value, hP]
      · simp [Column.check_value, hP]
    | int i => simp [Column.check_value]
    | dec d => simp [Column.check_value]
    | str s => simp [Column.check_value]

/-- C5 witness: a boundary-interior color is accepted on a concrete
ColorInvl column with bounds 10..20, 30..40, 50..60. -/
theorem c5_colorinvl_check_value_witness :
    Column.check_value ⟨"k", .ColorInvl, some 10, some 20, some 30, some 40,
      some 50, some 60⟩ (.color ⟨15, 35, 55⟩) = .ok () :=
  ((c5_colorinvl_check_value "k" 10 20 30 40 50 60 (by decide) (by decide)
      (by decide) (.color ⟨15, 35, 55⟩)).2.1).mpr
    ⟨⟨15, 35, 55⟩, rfl, by decide, by decide, by decide, by decide, by decide,
      by decide⟩

/-- C6: Column construction fails exactly on invariant violation: a
ColorInvl column with any bound missing fails with MissingRange; with all
bounds present and some channel's min above its max it fails with
RangeOutOfOrder; a non-ColorInvl column with any bound present fails with
UnexpectedRange; every other combination constructs successfully. -/
theorem c6_column_construction (name : String) (ty : Ty)
    (rmin rmax gmin gmax bmin bmax : Option Channel) :
    (ty = .ColorInvl →
      ((rmin = none ∨ rmax = none ∨ gmin = none ∨ gmax = none ∨
        bmin = none ∨ bmax = none) →
        Column.check ⟨name, ty, rmin, rmax, gmin, gmax, bmin, bmax⟩ =
          .error .MissingRange) ∧
      (∀ a b c d e f, rmin = some a → rmax = some b → gmin = some c →
        gmax = some d → bmin = some e → bmax = some f →
        ((b < a ∨ d < c ∨ f < e →
          Column.check ⟨name, ty, rmin, rmax, gmin, gmax, bmin, bmax⟩ =
            .error .RangeOutOfOrder) ∧
         (a ≤ b → c ≤ d → e ≤ f →
          Column.check ⟨name, ty, rmin, rmax, gmin, gmax, bmin, bmax⟩ =
            .ok ⟨name, ty, rmin, rmax, gmin, gmax, bmin, bmax⟩)))) ∧
    (ty ≠ .ColorInvl →
      ((rmin = none ∧ rmax = none ∧ gmin = none ∧ gmax = none ∧
        bmin = none ∧ bmax = none) →
        Column.check ⟨name, ty, rmin, rmax, gmin, gmax, bmin, bmax⟩ =
          .ok ⟨name, ty, rmin, rmax, gmin, gmax, bmin, bmax⟩) ∧
      (¬(rmin = none ∧ rmax = none ∧ gmin = none ∧ gmax = none ∧
         bmin = none ∧ bmax = none) →
        Column.check ⟨name, ty, rmin, rmax, gmin, gmax, bmin, bmax⟩ =
          .error .UnexpectedRange)) := by
  constructor
  · intro hty
    subst hty
    constructor
    · intro hmiss
      unfold Column.check
      rw [if_pos rfl]
      split
      · rcases hmiss with h | h | h | h | h | h <;> simp_all
      · rfl
    · intro a b c d e f ha hb hc hd he hf
      subst ha hb hc hd he hf
      constructor
      · intro hord
        unfold Column.check
        rw [if_pos rfl]
        rcases hord with h | h | h
        · simp [h]
        · by_cases hra : b < a
          · simp [hra]
          · simp [hra, h]
        · by_cases hra : b < a
          · simp [hra]
          · by_cases hga : d < c
            · simp [hra, hga]
            · simp [hra, hga, h]
      · intro h1 h2 h3
        unfold Column.check
        simp [not_lt.mpr h1, not_lt.mpr h2, not_lt.mpr h3]
  · intro hty
    constructor
    · intro hnone
      unfold Column.check
      rw [if_neg hty, if_pos hnone]
    · intro hsome
      unfold Column.check
      rw [if_neg hty, if_neg hsome]

/-- C6 witness: the five branches at concrete columns: a missing red
minimum, red bounds 10..5 out of order, a valid ColorInvl column, an
Integer column with a stray bound, and a plain Integer column. -/
theorem c6_column_construction_witness :
    Column.check ⟨"c", .ColorInvl, none, some 1, some 2, some 3, some 4, some 5⟩ =
      .error .MissingRange ∧
    Column.check ⟨"c", .ColorInvl, some 10, some 5, some 0, some 1, some 0, some 1⟩ =
      .error .RangeOutOfOrder ∧
    Column.check ⟨"c", .ColorInvl, some 0, some 1, some 2, some 3, some 4, some 5⟩ =
      .ok ⟨"c", .ColorInvl, some 0, some 1, some 2, some 3, some 4, some 5⟩ ∧
    Column.check ⟨"n", .Integer, some 0, none, none, none, none, none⟩ =
      .error .UnexpectedRange ∧
    Column.check ⟨"n", .Integer, none, none, none, none, none, none⟩ =
      .ok ⟨"n", .Integer, none, none, none, none, none, none⟩ :=
  ⟨((c6_column_construction "c" .ColorInvl none (some 1) (some 2) (some 3)
      (some 4) (some 5)).1 rfl).1 (Or.inl rfl),
   (((c6_column_construction "c" .ColorInvl (some 10) (some 5) (some 0) (some 1)
      (some 0) (some 1)).1 rfl).2 10 5 0 1 0 1 rfl rfl rfl rfl rfl rfl).1
      (Or.inl (by decide)),
   (((c6_column_construction "c" .ColorInvl (some 0) (some 1) (some 2) (some 3)
      (some 4) (some 5)).1 rfl).2 0 1 2 3 4 5 rfl rfl rfl rfl rfl rfl).2
      (by decide) (by decide) (by decide),
   ((c6_column_construction "n" .Integer (some 0) none none none none none).2
      (by decide)).2 (by decide),
   ((c6_column_construction "n" .Integer none none none none none none).2
      (by decide)).1 ⟨rfl, rfl, rfl, rfl, rfl, rfl⟩⟩

/-- When every cell passes its column check, the add_row validation loop
succeeds. -/
theorem checkCells_ok_of_forall (cols : List Column) (cells : List Value)
    (h : ∀ p ∈ cols.zip cells, p.1.check_value p.2 = .ok ()) :
    checkCells cols cells = .ok () := by
  induction cols generalizing cells with
  | nil => rfl
  | cons c cs ih =>
    cases cells with
    | nil => rfl
    | cons v vs =>
      have h1 : c.check_value v = .ok () := h (c, v) (by simp)
      unfold checkCells
      rw [h1]
      exact ih vs fun p hp => h p (by simp [hp])

/-- When every cell before some position passes and that position fails,
the add_row validation loop propagates exactly that failure. -/
theorem checkCells_first_error (cols1 : List Column) (co : Column)
    (cols2 : List Column) (vs1 : List Value) (v : Value) (vs2 : List Value)
    (e : DbError) (hlen : vs1.length = cols1.length)
    (hpre : ∀ p ∈ cols1.zip vs1, p.1.check_value p.2 = .ok ())
    (hco : co.check_value v = .error e) :
    checkCells (cols1 ++ co :: cols2) (vs1 ++ v :: vs2) = .error e := by
  induction cols1 generalizing vs1 with
  | nil =>
    cases vs1 with
    | nil =>
      simp only [List.nil_append]
      unfold checkCells
      rw [hco]
    | cons w ws => simp at hlen
  | cons c cs ih =>
    cases vs1 with
    | nil => simp at hlen
    | cons w ws =>
      have h1 : c.check_value w = .ok () := hpre (c, w) (by simp)
      simp only [List.cons_append]
      unfold checkCells
      rw [h1]
      exact ih ws (by simpa using hlen) fun p hp => hpre p (by simp [hp])

/-- C7: add_row fails with RowLengthMismatch whenever the cell count
differs from the column count, for any cells; with matching counts it
succeeds when every cell passes its column check, storing and returning a
row whose id is the current counter and incrementing the counter; and the
first failing cell short-circuits, propagating that column's check_value
error with no row committed. -/
theorem c7_add_row (t : Table) (cells : List Value) :
    (cells.length ≠ t.columns.length →
      t.add_row cells = .error .RowLengthMismatch) ∧
    (cells.length = t.columns.length →
      ((∀ p ∈ t.columns.zip cells, p.1.check_value p.2 = .ok ()) →
        t.add_row cells = .ok (⟨t.id, t.name, t.columns,
          t.rows ++ [(t.next_id, ⟨t.next_id, cells⟩)], t.next_id + 1⟩,
          ⟨t.next_id, cells⟩)) ∧
      (∀ cols1 co cols2 vs1 v vs2 e, t.columns = cols1 ++ co :: cols2 →
        cells = vs1 ++ v :: vs2 → vs1.length = cols1.length →
        (∀ p ∈ cols1.zip vs1, p.1.check_value p.2 = .ok ()) →
        co.check_value v = .error e → t.add_row cells = .error e)) := by
  refine ⟨fun hne => ?_, fun hlen => ⟨fun hok => ?_, ?_⟩⟩
  · unfold Table.add_row
    rw [if_pos hne]
  · unfold Table.add_row
    rw [if_neg (by simp [hlen]), checkCells_ok_of_forall t.columns cells hok]
  · intro cols1 co cols2 vs1 v vs2 e hcols hcells hlen1 hpre hco
    unfold Table.add_row
    rw [if_neg (by simp [hlen]), hcols, hcells,
      checkCells_first_error cols1 co cols2 vs1 v vs2 e hlen1 hpre hco]

/-- C7 witness: the three branches on a one-Integer-column table: an empty
cell list, a valid integer cell, and a string cell. -/
theorem c7_add_row_witness :
    Table.add_row ⟨0, "t", [colInt], [], 0⟩ [] = .error .RowLengthMismatch ∧
    Table.add_row ⟨0, "t", [colInt], [], 0⟩ [.int 5] =
      .ok (⟨0, "t", [colInt], [(0, ⟨0, [.int 5]⟩)], 1⟩, ⟨0, [.int 5]⟩) ∧
    Table.add_row ⟨0, "t", [colInt], [], 0⟩ [.str "a"] = .error .TypeMismatch :=
  ⟨(c7_add_row ⟨0, "t", [colInt], [], 0⟩ []).1 (by decide),
   ((c7_add_row ⟨0, "t", [colInt], [], 0⟩ [.int 5]).2 (by decide)).1 (by decide),
   ((c7_add_row ⟨0, "t", [colInt], [], 0⟩ [.str "a"]).2 (by decide)).2
     [] colInt [] [] (.str "a") [] .TypeMismatch rfl rfl rfl (by simp)
     (by decide)⟩

/-- Every successful add_row returns the row stored under the old counter
value and the table with that row appended and the counter bumped. -/
theorem add_row_ok_elim (t : Table) (cells : List Value) (t2 : Table) (row : Row)
    (h : t.add_row cells = .ok (t2, row)) :
    row = ⟨t.next_id, cells⟩ ∧
    t2 = ⟨t.id, t.name, t.columns, t.rows ++ [(t.next_id, ⟨t.next_id, cells⟩)],
      t.next_id + 1⟩ := by
  unfold Table.add_row at h
  split at h
  · simp at h
  · split at h
    · simp at h
    · injection h with h1
      injection h1 with h2 h3
      exact ⟨h3.symm, h2.symm⟩

/-- C8: ids are allocated monotonically and never reused. Generally: when
all stored row ids are below the counter, a successful add_row assigns the
counter value as the new id, which collides with no stored id, and
re-establishes the bound with the bumped counter, while remove_row never
changes the counter and only drops rows. Concretely: adding three rows to
a fresh table, removing the second, and adding a fourth yields ids
0, 1, 2, 3 with row 1 absent, and likewise for table ids in a database. -/
theorem c8_id_allocation :
    (∀ (t t2 : Table) (cells : List Value) (row : Row),
      (∀ p ∈ t.rows, p.1 < t.next_id) → t.add_row cells = .ok (t2, row) →
      row.id = t.next_id ∧ (∀ p ∈ t.rows, p.1 ≠ row.id) ∧
      t2.next_id = t.next_id + 1 ∧ ∀ p ∈ t2.rows, p.1 < t2.next_id) ∧
    (∀ (t : Table) (id : Nat), (t.remove_row id).next_id = t.next_id ∧
      ∀ p ∈ (t.remove_row id).rows, p ∈ t.rows) ∧
    (t8a.add_row [] = .ok (t8b, ⟨0, []⟩) ∧
     t8b.add_row [] = .ok (t8c, ⟨1, []⟩) ∧
     t8c.add_row [] = .ok (t8d, ⟨2, []⟩) ∧
     t8d.remove_row 1 = t8e ∧
     t8e.add_row [] = .ok (t8f, ⟨3, []⟩) ∧
     t8e.lookupRow 1 = none ∧ t8f.lookupRow 1 = none ∧
     t8f.rows.map Prod.fst = [0, 2, 3]) ∧
    ((db8a.add_table "ta" []).2.id = 0 ∧
     (db8b.add_table "tb" []).2.id = 1 ∧
     (db8c.add_table "tc" []).2.id = 2 ∧
     ((db8d.remove_table 1).add_table "td" []).2.id = 3 ∧
     ((db8d.remove_table 1).tables.find? fun p => p.1 = 1) = none ∧
     ((db8d.remove_table 1).add_table "td" []).1.tables.map Prod.fst =
       [0, 2, 3]) := by
  refine ⟨?_, ?_, by decide, by decide⟩
  · intro t t2 cells row hlt h
    obtain ⟨hrow, ht2⟩ := add_row_ok_elim t cells t2 row h
    subst hrow
    subst ht2
    refine ⟨rfl, fun p hp => Nat.ne_of_lt (hlt p hp), rfl, fun p hp => ?_⟩
    rcases List.mem_append.mp hp with hin | hin
    · exact Nat.lt_succ_of_lt (hlt p hin)
    · rw [List.mem_singleton.mp hin]
      exact Nat.lt_succ_self _
  · intro t id
    exact ⟨rfl, fun p hp => (List.mem_filter.mp hp).1⟩

/-- C8 witness: the general allocation component applied to the fresh
table and its first insertion. -/
theorem c8_id_allocation_witness :
    (⟨0, []⟩ : Row).id = t8a.next_id ∧
    (∀ p ∈ t8a.rows, p.1 ≠ (⟨0, []⟩ : Row).id) ∧
    t8b.next_id = t8a.next_id + 1 ∧ (∀ p ∈ t8b.rows, p.1 < t8b.next_id) :=
  c8_id_allocation.1 t8a t8b [] ⟨0, []⟩ (by decide) (by decide)

/-- C9: for an existing row and an in-bounds column, updating the cell
with a value that fails check_value returns TypeMismatch and the table,
including that row's prior cells, unchanged; when validation succeeds the
cell is overwritten in place and every other row and cell is kept. -/
theorem c9_update_cell (t : Table) (row_id column_id : Nat) (row : Row)
    (col : Column) (v : Value)
    (hrow : t.lookupRow row_id = some row)
    (hcol : t.columns.get? column_id = some col) :
    (col.check_value v = .error .TypeMismatch →
      update_cell_value t row_id column_id v = (t, .error .TypeMismatch)) ∧
    (col.check_value v = .ok () →
      update_cell_value t row_id column_id v =
        (⟨t.id, t.name, t.columns,
          t.rows.map fun p => if p.1 = row_id then
            (p.1, ⟨row.id, row.cells.set column_id v⟩) else p,
          t.next_id⟩, .ok ⟨row.id, row.cells.set column_id v⟩)) := by
  obtain ⟨hlt, hget⟩ := List.get?_eq_some.mp hcol
  constructor
  · intro hcv
    unfold update_cell_value
    rw [hrow]
    dsimp only
    rw [dif_pos hlt, hget, hcv]
  · intro hcv
    unfold update_cell_value
    rw [hrow]
    dsimp only
    rw [dif_pos hlt, hget, hcv]

/-- C9 witness: on the one-row Integer table, a string value is rejected
with the table unchanged, and an integer value overwrites the cell. -/
theorem c9_update_cell_witness :
    update_cell_value t9 0 0 (.str "x") = (t9, .error .TypeMismatch) ∧
    update_cell_value t9 0 0 (.int 9) =
      (⟨0, "t", [colInt], [(0, ⟨0, [.int 9]⟩)], 1⟩, .ok ⟨0, [.int 9]⟩) :=
  ⟨(c9_update_cell t9 0 0 ⟨0, [.int 7]⟩ colInt (.str "x") (by decide)
      (by decide)).1 (by decide),
   (c9_update_cell t9 0 0 ⟨0, [.int 7]⟩ colInt (.int 9) (by decide)
      (by decide)).2 (by decide)⟩

/-- C10: between two zero-column tables whose rows all carry the empty
cell vector, the difference always succeeds; its row set is all of the
left rows when the right table has no rows, and empty as soon as the
right table has any row, since every empty cell vector matches every
other. -/
theorem c10_zero_columns (left right : Table)
    (hl : left.columns = []) (hr : right.columns = [])
    (hL : ∀ p ∈ left.rows, p.2.cells = [])
    (hR : ∀ p ∈ right.rows, p.2.cells = []) :
    ∃ d, Table.sub left right = .ok d ∧
      (right.rows = [] → d.rows = left.rows) ∧
      (right.rows ≠ [] → d.rows = []) := by
  refine ⟨⟨left, right, [],
    left.rows.filter fun p => !(right.contains_row p.2)⟩, ?_, ?_, ?_⟩
  · unfold Table.sub
    rw [hl, hr]
    rfl
  · intro hre
    show List.filter _ _ = _
    rw [List.filter_eq_self]
    intro p hp
    simp [Table.contains_row, hre]
  · intro hrne
    show List.filter _ _ = _
    rw [List.filter_eq_nil_iff]
    intro p hp
    simp only [Bool.not_eq_true', Bool.not_eq_false]
    rw [Table.contains_row, List.any_eq_true]
    obtain ⟨q, hq⟩ := List.exists_mem_of_ne_nil right.rows hrne
    refine ⟨q, hq, ?_⟩
    rw [hL p hp, hR q hq]
    rfl

/-- C10 witness: the zero-column difference applied to the two concrete
one-row tables. -/
theorem c10_zero_columns_witness :
    ∃ d, Table.sub z10a z10b = .ok d ∧
      (z10b.rows = [] → d.rows = z10a.rows) ∧
      (z10b.rows ≠ [] → d.rows = []) :=
  c10_zero_columns z10a z10b rfl rfl (by decide) (by decide)

end DbmsRest
